import Mathlib

/-!
Verification of the pyHS100 TP-Link smart home library against its
specification.  The Python source (protocol.py, pyHS100.py, smartstrip.py)
is shallowly embedded: byte strings become `List Nat` (one entry per byte /
code point), JSON values become the `Json` inductive below, exceptions become
`Except`-style results, and the network transport becomes an explicit
function argument.
-/

/-- JSON values as produced by `json.loads`.  Numbers are modelled as
integers (the claims under verification only involve integer-valued
fields). -/
inductive Json where
  | null : Json
  | bool (b : Bool) : Json
  | num (n : Int) : Json
  | str (s : String) : Json
  | arr (xs : List Json) : Json
  | obj (kvs : List (String × Json)) : Json

/-- Key lookup in an association list, mirroring Python dict indexing
(`d[k]`); parsed JSON objects have unique keys. -/
def lookupList : List (String × Json) → String → Option Json
  | [], _ => none
  | (k', v) :: rest, k => if k' = k then some v else lookupList rest k

/-- Membership test for a key, mirroring Python `k in d`. -/
def hasKeyList : List (String × Json) → String → Bool
  | [], _ => false
  | (k', _) :: rest, k => if k' = k then true else hasKeyList rest k

/-- Key deletion, mirroring Python `del d[k]` on a dict with unique keys. -/
def eraseList : List (String × Json) → String → List (String × Json)
  | [], _ => []
  | (k', v) :: rest, k =>
      if k' = k then eraseList rest k else (k', v) :: eraseList rest k

/-- `j[k]` for a JSON object; non-objects have no keys in this model. -/
def Json.get : Json → String → Option Json
  | .obj kvs, k => lookupList kvs k
  | _, _ => none

/-- `k in j` for a JSON object. -/
def Json.hasKey : Json → String → Bool
  | .obj kvs, k => hasKeyList kvs k
  | _, _ => false

/-- `del j[k]` for a JSON object (identity on non-objects). -/
def Json.eraseKey : Json → String → Json
  | .obj kvs, k => .obj (eraseList kvs k)
  | j, _ => j

/-- Python truthiness `bool(v)` of a JSON value. -/
def truthy : Json → Bool
  | .null => false
  | .bool b => b
  | .num n => n != 0
  | .str s => s ≠ ""
  | .arr xs => !xs.isEmpty
  | .obj kvs => !kvs.isEmpty

/-- Python `v != 0` for a JSON value (`False == 0` and `True == 1` in
Python, so booleans compare like their numeric values). -/
def jsonNeZero : Json → Bool
  | .num n => n != 0
  | .bool b => b
  | _ => true

/-! ## CipherCodec and FrameCodec (protocol.py lines 121-159, 26-75) -/

/-- `TPLinkSmartHomeProtocol.INITIALIZATION_VECTOR` (protocol.py line 22). -/
def INITIALIZATION_VECTOR : Nat := 171

/-- `struct.pack(">I", n)`: the 4-byte big-endian encoding of `n`
(protocol.py line 130). -/
def pack32be (n : Nat) : List Nat :=
  [n / 16777216 % 256, n / 65536 % 256, n / 256 % 256, n % 256]

/-- `struct.unpack(">I", b)[0]` on a 4-byte buffer: big-endian value
(protocol.py line 57). -/
def unpack32be (l : List Nat) : Nat :=
  l.foldl (fun acc x => acc * 256 + x) 0

/-- The `for char in request` loop of `TPLinkSmartHomeProtocol.encrypt`
(protocol.py lines 132-135): `cipher = key ^ ord(char); key = cipher;
buffer.append(cipher)`. -/
def encryptLoop : Nat → List Nat → List Nat → List Nat
  | _, buffer, [] => buffer
  | key, buffer, ch :: rest => encryptLoop (key ^^^ ch) (buffer ++ [key ^^^ ch]) rest

/-- `TPLinkSmartHomeProtocol.encrypt` (protocol.py lines 121-137): the
buffer starts with `struct.pack(">I", len(request))` and the rolling-key
loop appends the ciphertext bytes. -/
def encrypt (request : List Nat) : List Nat :=
  encryptLoop INITIALIZATION_VECTOR (pack32be request.length) request

/-- The `for char in ciphertext` loop of `TPLinkSmartHomeProtocol.decrypt`
(protocol.py lines 152-155): `plain = key ^ ord(char); key = ord(char);
buffer.append(chr(plain))`. -/
def decryptLoop : Nat → List Nat → List Nat → List Nat
  | _, buffer, [] => buffer
  | key, buffer, ch :: rest => decryptLoop ch (buffer ++ [key ^^^ ch]) rest

/-- `TPLinkSmartHomeProtocol.decrypt` (protocol.py lines 139-159); the
latin-1 decode maps each byte to the equally numbered code point, so the
byte list is processed directly. -/
def decrypt (ciphertext : List Nat) : List Nat :=
  decryptLoop INITIALIZATION_VECTOR [] ciphertext

/-- The spec's encryption recurrence: `cipher_byte = key XOR input_byte;
key = cipher_byte`, emitting the cipher bytes in order. -/
def specEncryptStream : Nat → List Nat → List Nat
  | _, [] => []
  | key, x :: xs => (key ^^^ x) :: specEncryptStream (key ^^^ x) xs

/-- The spec's decryption recurrence: `plain_byte = key XOR input_byte;
key = input_byte`, emitting the plain bytes in order. -/
def specDecryptStream : Nat → List Nat → List Nat
  | _, [] => []
  | key, c :: cs => (key ^^^ c) :: specDecryptStream c cs

/-- `frame(x)`: the 4-byte big-endian length prefix followed by the
payload, exactly as `encrypt` lays out its output buffer around the
ciphertext (protocol.py lines 129-137). -/
def frame (x : List Nat) : List Nat := pack32be x.length ++ x

/-- `deframe(buffer)`: the declared length from the first 4 bytes and the
payload after them, exactly as `query` reads them (protocol.py lines 57
and 72). -/
def deframe (b : List Nat) : Nat × List Nat :=
  (unpack32be (b.take 4), b.drop 4)

/-! ## TransportClient read loop (protocol.py lines 49-60) -/

/-- Outcome of the TCP receive loop of `query`: a normal `break` with the
accumulated buffer, a `struct.error` from unpacking a header shorter than
4 bytes, or exhaustion of the incoming chunk stream without a `break`
(in the source the next `recv` would block until the socket timeout). -/
inductive ReadResult where
  | ok (buffer : List Nat) : ReadResult
  | structError : ReadResult
  | exhausted : ReadResult
deriving DecidableEq

/-- The `while True` receive loop of `TPLinkSmartHomeProtocol.query`
(protocol.py lines 53-60), driven by the list of successive `sock.recv`
results.  The Python sentinel `length = -1` is the `none` state; on the
first chunk `length = struct.unpack(">I", chunk[0:4])[0]` (which raises
`struct.error` when fewer than 4 bytes are available), then
`buffer += chunk`, and the loop breaks when
`(length > 0 and len(buffer) >= length + 4) or not chunk`. -/
def readLoop : Option Nat → List Nat → List (List Nat) → ReadResult
  | _, _, [] => .exhausted
  | .none, buffer, chunk :: rest =>
      if chunk.length < 4 then .structError
      else
        if (0 < unpack32be (chunk.take 4) ∧
              unpack32be (chunk.take 4) + 4 ≤ (buffer ++ chunk).length) ∨ chunk = [] then
          .ok (buffer ++ chunk)
        else readLoop (.some (unpack32be (chunk.take 4))) (buffer ++ chunk) rest
  | .some length, buffer, chunk :: rest =>
      if (0 < length ∧ length + 4 ≤ (buffer ++ chunk).length) ∨ chunk = [] then
        .ok (buffer ++ chunk)
      else readLoop (.some length) (buffer ++ chunk) rest

/-- The break condition of the read loop, stated for position `i` of the
remaining chunk stream: with declared length `length` and `base` bytes
already buffered, either (a) the bytes buffered after consuming chunks
`0..i` reach `length + 4` and `length` is nonzero, or (b) chunk `i` is a
zero-byte read. -/
def readTrigger (length : Nat) (base : Nat) (chunks : List (List Nat)) (i : Nat) : Prop :=
  (0 < length ∧ length + 4 ≤ base + ((chunks.take (i + 1)).flatten).length) ∨
    chunks[i]? = some []

/-! ## Discovery sweep (protocol.py lines 77-119) -/

/-- One UDP datagram received during discovery: payload and sender. -/
structure Datagram where
  data : List Nat
  ip : String
  port : Nat

/-- One entry of the list `discover` returns:
`{"ip": ip, "port": port, "sys_info": info}` (protocol.py line 113). -/
structure DeviceDesc where
  ip : String
  port : Nat
  sysInfo : Json

/-- The receive loop of `TPLinkSmartHomeProtocol.discover` (protocol.py
lines 104-119), driven by the datagrams received before the socket
timeout; `json.loads` is the `parse` parameter.  The `try` block encloses
the whole `while` loop, so a datagram whose decrypted payload fails to
parse raises out of the loop into the outer `except Exception` handler,
which logs and falls through to `return devices`. -/
def discoverLoop (parse : List Nat → Option Json) (devices : List DeviceDesc) :
    List Datagram → List DeviceDesc
  | [] => devices
  | d :: rest =>
      match parse (decrypt d.data) with
      | some info => discoverLoop parse (devices ++ [⟨d.ip, d.port, info⟩]) rest
      | none => devices

/-- `TPLinkSmartHomeProtocol.discover`, abstracted over the JSON parser
and the received datagrams. -/
def discover (parse : List Nat → Option Json) (dgrams : List Datagram) : List DeviceDesc :=
  discoverLoop parse [] dgrams

/-- A concrete stand-in for `json.loads` used to evaluate the discovery
loop on explicit datagrams: payloads decrypting to `[1]` parse, everything
else fails to parse. -/
def parseOnly1 (b : List Nat) : Option Json :=
  if b = [1] then some (Json.num 7) else none

/-- Three discovery datagrams: the first and third decrypt to `[1]` (they
parse), the second does not. -/
def cexDgrams : List Datagram :=
  [⟨[170], "a", 1⟩, ⟨[0], "b", 2⟩, ⟨[170], "c", 3⟩]

/-! ## CommandDispatcher (pyHS100.py lines 56-86) -/

/-- The message contents `SmartPlugException` is constructed with in
`_query_helper`: no message (transport failure wrapping), the formatted
`"No required {target} in response: {response}"`, or the formatted
`"Error on {target}.{cmd}: {result}"`. -/
inductive Msg where
  | empty : Msg
  | noRequiredTarget (target : String) (response : Json) : Msg
  | errorOn (target cmd : String) (result : Json) : Msg

/-- The Python exceptions `_query_helper` can raise: `SmartPlugException`
(with its message and, for `raise_from`, the wrapped original cause) and
`KeyError` from `result[cmd]` / `del result["err_code"]`. -/
inductive PyErr where
  | smartPlugException (msg : Msg) (cause : Option String) : PyErr
  | keyError (key : String) : PyErr

/-- The Python exception class of an error, as a caller distinguishing
failures by type (`except SomeClass`) sees it. -/
def pyErrClass : PyErr → String
  | .smartPlugException _ _ => "SmartPlugException"
  | .keyError _ => "KeyError"

/-- The transport layer `protocol.query(host, request={target: {cmd: arg}})`
as `_query_helper` invokes it; an `Except.error` is any exception the
transport raises (connection failure, timeout, JSON parse failure). -/
def Transport : Type := String → String → Json → Except String Json

/-- The check `"err_code" in result and result["err_code"] != 0`
(pyHS100.py line 80). -/
def errCodeNonzero (result : Json) : Bool :=
  match result.get "err_code" with
  | some v => jsonNeZero v
  | none => false

/-- `SmartDevice._query_helper` (pyHS100.py lines 56-86): wrap any
transport exception in a bare `SmartPlugException` carrying the cause;
raise `SmartPlugException` when the response lacks the target key; raise
`SmartPlugException` when `response[target]` carries a nonzero
`err_code`; then descend to `result[cmd]`, delete `"err_code"` and return
the remainder (`result[cmd]` or the deletion raise `KeyError` when the
key is absent). -/
def queryHelper (T : Transport) (target cmd : String) (arg : Json) : Except PyErr Json :=
  match T target cmd arg with
  | .error ex => .error (.smartPlugException .empty (some ex))
  | .ok response =>
      match response.get target with
      | none => .error (.smartPlugException (.noRequiredTarget target response) none)
      | some result =>
          if errCodeNonzero result then
            .error (.smartPlugException (.errorOn target cmd result) none)
          else
            match result.get cmd with
            | none => .error (.keyError cmd)
            | some leaf =>
                if leaf.hasKey "err_code" then .ok (leaf.eraseKey "err_code")
                else .error (.keyError "err_code")

/-! ## Energy metering (pyHS100.py lines 284-296 and 371-386) -/

/-- The per-family emeter attributes the `SmartDevice` subclasses set:
`SmartPlug.__init__` sets `emeter_type = "emeter"`, `emeter_units = False`
(and `has_emeter` is derived from the feature list); `SmartBulb.__init__`
sets `emeter_type = "smartlife.iot.common.emeter"`, `emeter_units = True`
(and `has_emeter` is constantly true). -/
structure EmeterCfg where
  hasEmeter : Bool
  emeterType : String
  emeterUnits : Bool

/-- `SmartDevice.get_emeter_realtime` (pyHS100.py lines 284-296): returns
`False` without an emeter, otherwise dispatches
`_query_helper(self.emeter_type, "get_realtime")`. -/
def getEmeterRealtime (cfg : EmeterCfg) (T : Transport) : Except PyErr Json :=
  if cfg.hasEmeter = false then .ok (.bool false)
  else queryHelper T cfg.emeterType "get_realtime" (Json.obj [])

/-- `SmartDevice.current_consumption` (pyHS100.py lines 371-386): returns
`False` without an emeter, otherwise reads `response['power_mw']` when
`emeter_units` and `response['power']` otherwise (raw field, no unit
conversion; a missing field is a `KeyError`). -/
def currentConsumption (cfg : EmeterCfg) (T : Transport) : Except PyErr Json :=
  if cfg.hasEmeter = false then .ok (.bool false)
  else
    match getEmeterRealtime cfg T with
    | .error e => .error e
    | .ok response =>
        match response.get (if cfg.emeterUnits then "power_mw" else "power") with
        | some v => .ok v
        | none => .error (.keyError (if cfg.emeterUnits then "power_mw" else "power"))

/-- SmartPlug configuration (pyHS100.py lines 652-655) with the energy
meter feature present. -/
def plugCfg : EmeterCfg := ⟨true, "emeter", false⟩

/-- A transport whose device answers `emeter.get_realtime` with the raw
watt-unit reading of an HS110-style plug (integer-valued for this
model). -/
def plugEmeterT : Transport := fun target cmd _ =>
  if target = "emeter" ∧ cmd = "get_realtime" then
    .ok (Json.obj [("emeter", Json.obj [("get_realtime",
      Json.obj [("current", Json.num 268), ("voltage", Json.num 125),
                ("power", Json.num 33), ("total", Json.num 0),
                ("err_code", Json.num 0)])])])
  else .error "unreachable"

/-! ## SmartBulb capability-gated setters (pyHS100.py lines 433-576) -/

/-- One dispatched network request: the `target`, `cmd` and `arg` of a
`_query_helper` call (the envelope `{target: {cmd: arg}}`). -/
structure Req where
  target : String
  cmd : String
  arg : Json

/-- The request issued by every `self.sys_info` read:
`_query_helper("system", "get_sysinfo")`. -/
def sysinfoReq : Req := ⟨"system", "get_sysinfo", Json.obj []⟩

/-- The state-changing commands dispatched anywhere in the source
(relay/LED/alias/mac mutators, light-state transitions, brightness,
timezone, emeter-statistics erasure); `get_*` queries are read-only. -/
def stateChangingCmds : List String :=
  ["set_relay_state", "set_dev_alias", "set_mac_addr", "set_led_off",
   "set_dev_icon", "set_timezone", "transition_light_state",
   "set_brightness", "erase_emeter_stat"]

/-- Whether a dispatched request changes device state. -/
def Req.stateChanging (r : Req) : Bool := stateChangingCmds.contains r.cmd

/-- Python `int(value * 100 / 255)` (pyHS100.py line 509): float division
then truncation toward zero; for the magnitudes involved the float
arithmetic is exact enough that this equals truncated integer division. -/
def scale255to100 (value : Int) : Int := (value * 100).tdiv 255

/-- The `hsv` setter of `SmartBulb` (pyHS100.py lines 496-512).  Reading
`self.is_color` dispatches `system.get_sysinfo` and tests
`bool(sys_info['is_color'])`; when falsy the setter is `return None`;
otherwise it dispatches `transition_light_state` with the new light
state.  The result pairs the returned value (or raised error) with the
list of requests sent. -/
def bulbHsvSet (T : Transport) (hue sat value : Int) :
    Except PyErr (Option Json) × List Req :=
  match queryHelper T "system" "get_sysinfo" (Json.obj []) with
  | .error e => (.error e, [sysinfoReq])
  | .ok si =>
      match si.get "is_color" with
      | none => (.error (.keyError "is_color"), [sysinfoReq])
      | some v =>
          if truthy v = false then (.ok none, [sysinfoReq])
          else
            let ls := Json.obj [("hue", Json.num hue), ("saturation", Json.num sat),
              ("brightness", Json.num (scale255to100 value)), ("color_temp", Json.num 0)]
            match queryHelper T "smartlife.iot.smartbulb.lightingservice"
                "transition_light_state" ls with
            | .error e =>
                (.error e, [sysinfoReq,
                  ⟨"smartlife.iot.smartbulb.lightingservice", "transition_light_state", ls⟩])
            | .ok r =>
                (.ok (some r), [sysinfoReq,
                  ⟨"smartlife.iot.smartbulb.lightingservice", "transition_light_state", ls⟩])

/-- The `color_temp` setter of `SmartBulb` (pyHS100.py lines 531-544),
gated on `bool(sys_info['is_variable_color_temp'])`. -/
def bulbColorTempSet (T : Transport) (temp : Int) :
    Except PyErr (Option Json) × List Req :=
  match queryHelper T "system" "get_sysinfo" (Json.obj []) with
  | .error e => (.error e, [sysinfoReq])
  | .ok si =>
      match si.get "is_variable_color_temp" with
      | none => (.error (.keyError "is_variable_color_temp"), [sysinfoReq])
      | some v =>
          if truthy v = false then (.ok none, [sysinfoReq])
          else
            let ls := Json.obj [("color_temp", Json.num temp)]
            match queryHelper T "smartlife.iot.smartbulb.lightingservice"
                "transition_light_state" ls with
            | .error e =>
                (.error e, [sysinfoReq,
                  ⟨"smartlife.iot.smartbulb.lightingservice", "transition_light_state", ls⟩])
            | .ok r =>
                (.ok (some r), [sysinfoReq,
                  ⟨"smartlife.iot.smartbulb.lightingservice", "transition_light_state", ls⟩])

/-- The `brightness` setter of `SmartBulb` (pyHS100.py lines 563-576),
gated on `bool(sys_info['is_dimmable'])`. -/
def bulbBrightnessSet (T : Transport) (brightness : Int) :
    Except PyErr (Option Json) × List Req :=
  match queryHelper T "system" "get_sysinfo" (Json.obj []) with
  | .error e => (.error e, [sysinfoReq])
  | .ok si =>
      match si.get "is_dimmable" with
      | none => (.error (.keyError "is_dimmable"), [sysinfoReq])
      | some v =>
          if truthy v = false then (.ok none, [sysinfoReq])
          else
            let ls := Json.obj [("brightness", Json.num brightness)]
            match queryHelper T "smartlife.iot.smartbulb.lightingservice"
                "transition_light_state" ls with
            | .error e =>
                (.error e, [sysinfoReq,
                  ⟨"smartlife.iot.smartbulb.lightingservice", "transition_light_state", ls⟩])
            | .ok r =>
                (.ok (some r), [sysinfoReq,
                  ⟨"smartlife.iot.smartbulb.lightingservice", "transition_light_state", ls⟩])

/-- A transport whose device reports an LB120-style sysinfo with
`is_color`, `is_dimmable` and `is_variable_color_temp` all `0`. -/
def bulbNoColorT : Transport := fun target cmd _ =>
  if target = "system" ∧ cmd = "get_sysinfo" then
    .ok (Json.obj [("system", Json.obj [("get_sysinfo",
      Json.obj [("err_code", Json.num 0), ("is_color", Json.num 0),
                ("is_dimmable", Json.num 0), ("is_variable_color_temp", Json.num 0),
                ("model", Json.str "LB120(US)")])])])
  else .error "unreachable"

/-! ## SmartStrip per-outlet addressing (smartstrip.py lines 146-265) -/

/-- Python list indexing `xs[i]`, including negative indices counting from
the end; out of range is an `IndexError`, modelled as `none`. -/
def pyListGet (xs : List Json) (i : Int) : Option Json :=
  if 0 ≤ i then xs[i.toNat]?
  else if i.natAbs ≤ xs.length then xs[xs.length - i.natAbs]?
  else none

/-- `j[i]` for a JSON array. -/
def Json.pyAt : Json → Int → Option Json
  | .arr xs, i => pyListGet xs i
  | _, _ => none

/-- `SmartStrip._index_to_id` (smartstrip.py lines 191-200):
`sys_info["children"][index-1]["id"]` — the documented one-based
resolution of a plug index to a child identifier. -/
def indexToId (sysinfo : Json) (index : Int) : Option Json :=
  ((sysinfo.get "children").bind (fun cs => cs.pyAt (index - 1))).bind
    (fun c => c.get "id")

/-- The value `SmartStrip.is_on` reads (smartstrip.py lines 146-153):
`sys_info['children'][index]['state']` — a zero-based read. -/
def stripIsOnState (sysinfo : Json) (index : Int) : Option Json :=
  ((sysinfo.get "children").bind (fun cs => cs.pyAt index)).bind
    (fun c => c.get "state")

/-- The value `SmartStrip.on_since` reads (smartstrip.py lines 222-232):
`sys_info["children"][index]["on_time"]` — a zero-based read. -/
def stripOnTime (sysinfo : Json) (index : Int) : Option Json :=
  ((sysinfo.get "children").bind (fun cs => cs.pyAt index)).bind
    (fun c => c.get "on_time")

/-- Modelled from the spec: a dispatch request extended with the
addressing context identifying the targeted child outlet.  SmartStrip
passes `self._index_to_id(index)` as a fourth argument to
`_query_helper` (smartstrip.py lines 171-189) and as an argument to
`super().get_emeter_realtime` (line 265); the `SmartDevice` revision
accepting this context parameter is not among the sources, so per the
spec the protocol envelope gains a context field identifying which child
outlet the command targets. -/
structure CtxReq where
  target : String
  cmd : String
  arg : Json
  context : Option Json

/-- Modelled from the spec: the context-addressed dispatch issued by
`SmartStrip.turn_on_plug(index)` (smartstrip.py lines 171-179) —
`system.set_relay_state {state: 1}` with context `_index_to_id(index)`
(`none` when the index resolution fails). -/
def turnOnPlugReq (sysinfo : Json) (index : Int) : Option CtxReq :=
  (indexToId sysinfo index).map fun cid =>
    ⟨"system", "set_relay_state", Json.obj [("state", Json.num 1)], some cid⟩

/-- Modelled from the spec: the context-addressed dispatch issued by
`SmartStrip.turn_off_plug(index)` (smartstrip.py lines 181-189). -/
def turnOffPlugReq (sysinfo : Json) (index : Int) : Option CtxReq :=
  (indexToId sysinfo index).map fun cid =>
    ⟨"system", "set_relay_state", Json.obj [("state", Json.num 0)], some cid⟩

/-- Modelled from the spec: the context-addressed dispatch issued by
`SmartStrip.get_emeter_realtime(index)` (smartstrip.py lines 250-265)
for a non-`None` index — `emeter.get_realtime` with context
`_index_to_id(index)`. -/
def stripEmeterRealtimeReq (sysinfo : Json) (index : Int) : Option CtxReq :=
  (indexToId sysinfo index).map fun cid =>
    ⟨"emeter", "get_realtime", Json.obj [], some cid⟩

/-- A three-outlet strip sysinfo with children ids `"A"`, `"B"`, `"C"`. -/
def stripSysinfo3 : Json :=
  Json.obj [("child_num", Json.num 3), ("children", Json.arr
    [Json.obj [("id", Json.str "A"), ("state", Json.num 1), ("on_time", Json.num 10)],
     Json.obj [("id", Json.str "B"), ("state", Json.num 0), ("on_time", Json.num 20)],
     Json.obj [("id", Json.str "C"), ("state", Json.num 1), ("on_time", Json.num 30)]])]

/-! ## Fixture transports for the dispatcher claims -/

/-- A transport whose query raises (connection refused). -/
def failT : Transport := fun _ _ _ => .error "ConnectionRefusedError"

/-- A transport answering with an empty JSON object (the requested target
key is missing). -/
def emptyT : Transport := fun _ _ _ => .ok (Json.obj [])

/-- A transport answering with a nonzero `err_code` directly inside the
target object. -/
def errCodeT : Transport := fun target _ _ =>
  .ok (Json.obj [(target, Json.obj [("err_code", Json.num 1)])])

/-- A transport answering `system.get_sysinfo` with a successful leaf
result. -/
def okT : Transport := fun target cmd _ =>
  if target = "system" ∧ cmd = "get_sysinfo" then
    .ok (Json.obj [("system", Json.obj [("get_sysinfo",
      Json.obj [("err_code", Json.num 0), ("alias", Json.str "x")])])])
  else .error "unreachable"

lemma encryptLoop_eq (l : List Nat) :
    ∀ key buffer, encryptLoop key buffer l = buffer ++ specEncryptStream key l := by
  induction l with
  | nil => intro key buffer; simp [encryptLoop, specEncryptStream]
  | cons x xs ih =>
      intro key buffer
      simp [encryptLoop, specEncryptStream, ih, List.append_assoc]

lemma decryptLoop_eq (l : List Nat) :
    ∀ key buffer, decryptLoop key buffer l = buffer ++ specDecryptStream key l := by
  induction l with
  | nil => intro key buffer; simp [decryptLoop, specDecryptStream]
  | cons x xs ih =>
      intro key buffer
      simp [decryptLoop, specDecryptStream, ih, List.append_assoc]

lemma specEncryptStream_length (l : List Nat) :
    ∀ key, (specEncryptStream key l).length = l.length := by
  induction l with
  | nil => intro key; simp [specEncryptStream]
  | cons x xs ih => intro key; simp [specEncryptStream, ih]

lemma specDecrypt_specEncrypt (l : List Nat) :
    ∀ key, specDecryptStream key (specEncryptStream key l) = l := by
  induction l with
  | nil => intro key; simp [specEncryptStream, specDecryptStream]
  | cons x xs ih =>
      intro key
      simp [specEncryptStream, specDecryptStream, ih]
      rw [← Nat.xor_assoc, Nat.xor_self, Nat.zero_xor]

lemma pack32be_length (n : Nat) : (pack32be n).length = 4 := by
  simp [pack32be]

lemma unpack_pack (n : Nat) (h : n < 4294967296) :
    unpack32be (pack32be n) = n := by
  simp [pack32be, unpack32be, List.foldl]
  omega

/-- C1 counterexample: the source's `decrypt ∘ encrypt` is not the
identity, because `encrypt` prepends the 4-byte length header and
`decrypt` does not strip it; on the empty byte sequence the composite
yields `[171, 0, 0, 0]`. -/
theorem cipher_roundtrip_counterexample :
    decrypt (encrypt []) = [171, 0, 0, 0] ∧ decrypt (encrypt []) ≠ [] := by
  refine ⟨by decide, by decide⟩

/-- C1 (amended): for every byte sequence `b`, decrypting the encryption
of `b` after dropping the 4-byte length header yields `b` again —
`decrypt(encrypt(b)[4:]) == b`, which is exactly how `query` and
`discover` use the pair (protocol.py lines 72 and 102). -/
theorem cipher_roundtrip_after_header (b : List Nat) (hb : ∀ x ∈ b, x < 256) :
    decrypt ((encrypt b).drop 4) = b := by
  rw [encrypt, encryptLoop_eq, ← pack32be_length b.length, List.drop_left,
    decrypt, decryptLoop_eq, List.nil_append, specDecrypt_specEncrypt]

/-- Witness for `cipher_roundtrip_after_header` at the byte sequence
`[123, 34, 125]`. -/
theorem cipher_roundtrip_after_header_witness :
    decrypt ((encrypt [123, 34, 125]).drop 4) = [123, 34, 125] :=
  cipher_roundtrip_after_header [123, 34, 125] (by decide)

/-- C5: the cipher is exactly the rolling-key stream cipher seeded with
171: `encrypt` emits (after the length header) the stream where each
cipher byte is `key XOR input_byte` with the key updated to the cipher
byte, and `decrypt` emits the stream where each plain byte is
`key XOR input_byte` with the key updated to the input (ciphertext)
byte. -/
theorem cipher_is_rolling_key (r c : List Nat) :
    INITIALIZATION_VECTOR = 171 ∧
    encrypt r = pack32be r.length ++ specEncryptStream 171 r ∧
    decrypt c = specDecryptStream 171 c ∧
    (∀ key x xs, specEncryptStream key (x :: xs) =
        (key ^^^ x) :: specEncryptStream (key ^^^ x) xs) ∧
    (∀ key x xs, specDecryptStream key (x :: xs) =
        (key ^^^ x) :: specDecryptStream x xs) := by
  refine ⟨rfl, ?_, ?_, fun _ _ _ => rfl, fun _ _ _ => rfl⟩
  · rw [encrypt, encryptLoop_eq]; rfl
  · rw [decrypt, decryptLoop_eq, List.nil_append]; rfl

/-- C6: framing produces exactly a 4-byte big-endian prefix decoding to
the payload length, deframing a framed payload returns the length and the
payload, and `encrypt` frames its ciphertext with the plaintext length
(which equals the ciphertext length). -/
theorem frame_roundtrip (x p : List Nat) (hx : x.length < 4294967296) :
    (pack32be x.length).length = 4 ∧
    unpack32be (pack32be x.length) = x.length ∧
    deframe (frame x) = (x.length, x) ∧
    encrypt p = frame (specEncryptStream 171 p) ∧
    (specEncryptStream 171 p).length = p.length := by
  refine ⟨pack32be_length _, unpack_pack _ hx, ?_, ?_, specEncryptStream_length p 171⟩
  · show (unpack32be ((pack32be x.length ++ x).take 4),
        (pack32be x.length ++ x).drop 4) = (x.length, x)
    rw [← pack32be_length x.length, List.take_left, List.drop_left, unpack_pack _ hx]
  · rw [encrypt, encryptLoop_eq, frame, specEncryptStream_length]; rfl

/-- Witness for `frame_roundtrip` at the payload `[5, 6, 7]` and the
plaintext `[1, 2]`. -/
theorem frame_roundtrip_witness :
    (pack32be ([5, 6, 7] : List Nat).length).length = 4 ∧
    unpack32be (pack32be ([5, 6, 7] : List Nat).length) = ([5, 6, 7] : List Nat).length ∧
    deframe (frame [5, 6, 7]) = (([5, 6, 7] : List Nat).length, [5, 6, 7]) ∧
    encrypt [1, 2] = frame (specEncryptStream 171 [1, 2]) ∧
    (specEncryptStream 171 [1, 2]).length = ([1, 2] : List Nat).length :=
  frame_roundtrip [5, 6, 7] [1, 2] (by decide)

lemma hasKeyList_eraseList (kvs : List (String × Json)) (k : String) :
    hasKeyList (eraseList kvs k) k = false := by
  induction kvs with
  | nil => simp [eraseList, hasKeyList]
  | cons p rest ih =>
      obtain ⟨k', v⟩ := p
      by_cases h : k' = k
      · simpa [eraseList, h] using ih
      · simpa [eraseList, hasKeyList, h] using ih

lemma lookupList_eraseList (kvs : List (String × Json)) (k k' : String) (h : k' ≠ k) :
    lookupList (eraseList kvs k) k' = lookupList kvs k' := by
  induction kvs with
  | nil => simp [eraseList]
  | cons p rest ih =>
      obtain ⟨k'', v⟩ := p
      by_cases hk : k'' = k
      · have hne : k'' ≠ k' := by
          rw [hk]; exact fun hc => h hc.symm
        simp only [eraseList, if_pos hk, ih, lookupList, if_neg hne]
      · simp only [eraseList, if_neg hk, lookupList, ih]

lemma Json.hasKey_eraseKey (j : Json) (k : String) :
    (j.eraseKey k).hasKey k = false := by
  cases j <;> simp [Json.eraseKey, Json.hasKey]
  exact hasKeyList_eraseList _ _

lemma Json.get_eraseKey_ne (j : Json) (k k' : String) (h : k' ≠ k) :
    (j.eraseKey k).get k' = j.get k' := by
  cases j <;> simp [Json.eraseKey, Json.get]
  exact lookupList_eraseList _ _ _ h

/-- C2 counterexample: the three failure kinds of `_query_helper` —
transport failure, missing target key, nonzero status — all raise the
single exception class `SmartPlugException`; they are not distinct error
types distinguishable to the caller, only the message payload and the
wrapped cause differ. -/
theorem query_helper_counterexample :
    queryHelper failT "system" "get_sysinfo" (Json.obj []) =
      .error (.smartPlugException .empty (some "ConnectionRefusedError")) ∧
    queryHelper emptyT "system" "get_sysinfo" (Json.obj []) =
      .error (.smartPlugException (.noRequiredTarget "system" (Json.obj [])) none) ∧
    queryHelper errCodeT "system" "get_sysinfo" (Json.obj []) =
      .error (.smartPlugException
        (.errorOn "system" "get_sysinfo" (Json.obj [("err_code", Json.num 1)])) none) ∧
    pyErrClass (.smartPlugException .empty (some "ConnectionRefusedError")) =
      pyErrClass (.smartPlugException (.noRequiredTarget "system" (Json.obj [])) none) ∧
    pyErrClass (.smartPlugException (.noRequiredTarget "system" (Json.obj [])) none) =
      pyErrClass (.smartPlugException
        (.errorOn "system" "get_sysinfo" (Json.obj [("err_code", Json.num 1)])) none) :=
  ⟨rfl, rfl, rfl, rfl, rfl⟩

/-- C2 (amended): `_query_helper` has the three failure behaviours — a
transport exception is wrapped as the cause of a bare exception, a
response lacking the target key raises with a message naming the target
and response, and a nonzero `err_code` in the target's result raises with
a message carrying target, command and the device-reported result — but
all three raise the same exception type `SmartPlugException`,
distinguishable only by message and cause, not as distinct types. -/
theorem query_helper_error_kinds (T : Transport) (target cmd : String) (arg : Json) :
    (∀ ex, T target cmd arg = .error ex →
        queryHelper T target cmd arg =
          .error (.smartPlugException .empty (some ex))) ∧
    (∀ response, T target cmd arg = .ok response → response.get target = none →
        queryHelper T target cmd arg =
          .error (.smartPlugException (.noRequiredTarget target response) none)) ∧
    (∀ response result, T target cmd arg = .ok response →
        response.get target = some result → errCodeNonzero result = true →
        queryHelper T target cmd arg =
          .error (.smartPlugException (.errorOn target cmd result) none)) := by
  refine ⟨?_, ?_, ?_⟩
  · intro ex hT
    simp [queryHelper, hT]
  · intro response hT hg
    simp [queryHelper, hT, hg]
  · intro response result hT hg he
    simp [queryHelper, hT, hg, he]

/-- Witness for `query_helper_error_kinds`: the three failure kinds
evaluated on concrete transports. -/
theorem query_helper_error_kinds_witness :
    queryHelper failT "time" "get_time" (Json.obj []) =
      .error (.smartPlugException .empty (some "ConnectionRefusedError")) ∧
    queryHelper emptyT "time" "get_time" (Json.obj []) =
      .error (.smartPlugException (.noRequiredTarget "time" (Json.obj [])) none) ∧
    queryHelper errCodeT "time" "get_time" (Json.obj []) =
      .error (.smartPlugException
        (.errorOn "time" "get_time" (Json.obj [("err_code", Json.num 1)])) none) :=
  ⟨(query_helper_error_kinds failT "time" "get_time" (Json.obj [])).1
      "ConnectionRefusedError" rfl,
   (query_helper_error_kinds emptyT "time" "get_time" (Json.obj [])).2.1
      (Json.obj []) rfl rfl,
   (query_helper_error_kinds errCodeT "time" "get_time" (Json.obj [])).2.2
      (Json.obj [("time", Json.obj [("err_code", Json.num 1)])])
      (Json.obj [("err_code", Json.num 1)]) rfl rfl rfl⟩

/-- C8: every successful `_query_helper` call descended to the command's
result, removed the `err_code` status field (which was present), and
returned the remainder unchanged: the returned mapping never contains
`err_code`, and every other key is preserved with its value. -/
theorem query_helper_strips_err_code (T : Transport) (target cmd : String) (arg : Json)
    (r : Json) (h : queryHelper T target cmd arg = .ok r) :
    r.hasKey "err_code" = false ∧
    ∃ response result leaf,
      T target cmd arg = .ok response ∧
      response.get target = some result ∧
      errCodeNonzero result = false ∧
      result.get cmd = some leaf ∧
      leaf.hasKey "err_code" = true ∧
      r = leaf.eraseKey "err_code" ∧
      ∀ k, k ≠ "err_code" → r.get k = leaf.get k := by
  cases hT : T target cmd arg with
  | error e => simp [queryHelper, hT] at h
  | ok response =>
      cases hg : response.get target with
      | none => simp [queryHelper, hT, hg] at h
      | some result =>
          cases he : errCodeNonzero result with
          | true => simp [queryHelper, hT, hg, he] at h
          | false =>
              cases hc : result.get cmd with
              | none => simp [queryHelper, hT, hg, he, hc] at h
              | some leaf =>
                  cases hk : leaf.hasKey "err_code" with
                  | false => simp [queryHelper, hT, hg, he, hc, hk] at h
                  | true =>
                      simp only [queryHelper, hT, hg, he, hc, hk, Bool.false_eq_true,
                        if_false, if_true, Except.ok.injEq] at h
                      subst h
                      refine ⟨Json.hasKey_eraseKey _ _,
                        response, result, leaf, rfl, hg, he, hc, hk, rfl, ?_⟩
                      intro k hkne
                      exact Json.get_eraseKey_ne _ _ _ hkne

/-- Witness for `query_helper_strips_err_code` on a concrete successful
`system.get_sysinfo` exchange. -/
theorem query_helper_strips_err_code_witness :
    (Json.obj [("alias", Json.str "x")]).hasKey "err_code" = false ∧
    ∃ response result leaf,
      okT "system" "get_sysinfo" (Json.obj []) = .ok response ∧
      response.get "system" = some result ∧
      errCodeNonzero result = false ∧
      result.get "get_sysinfo" = some leaf ∧
      leaf.hasKey "err_code" = true ∧
      Json.obj [("alias", Json.str "x")] = leaf.eraseKey "err_code" ∧
      ∀ k, k ≠ "err_code" →
        (Json.obj [("alias", Json.str "x")]).get k = leaf.get k :=
  query_helper_strips_err_code okT "system" "get_sysinfo" (Json.obj [])
    (Json.obj [("alias", Json.str "x")]) rfl

/-- C4 counterexample: a plug-family `get_emeter_realtime` reading is
returned raw (only `err_code` removed): it carries `power` but no
`power_mw` field at all, so the exposed reading does not satisfy
`power_mw == round(power * 1000)` and no canonical shape with both raw
and normalized fields exists. -/
theorem emeter_counterexample :
    getEmeterRealtime plugCfg plugEmeterT =
      .ok (Json.obj [("current", Json.num 268), ("voltage", Json.num 125),
                     ("power", Json.num 33), ("total", Json.num 0)]) ∧
    (Json.obj [("current", Json.num 268), ("voltage", Json.num 125),
               ("power", Json.num 33), ("total", Json.num 0)]).get "power" =
      some (Json.num 33) ∧
    (Json.obj [("current", Json.num 268), ("voltage", Json.num 125),
               ("power", Json.num 33), ("total", Json.num 0)]).get "power_mw" = none :=
  ⟨rfl, rfl, rfl⟩

/-- C4 (amended): the core performs no unit normalization: a successful
`get_emeter_realtime` returns the device's raw reading with only
`err_code` removed and every other field unchanged, and
`current_consumption` returns the raw per-family field (`power_mw` for
milli-unit families, `power` for watt families) without conversion. -/
theorem emeter_passthrough (cfg : EmeterCfg) (T : Transport)
    (response result leaf v : Json)
    (hE : cfg.hasEmeter = true)
    (hT : T cfg.emeterType "get_realtime" (Json.obj []) = .ok response)
    (hg : response.get cfg.emeterType = some result)
    (he : errCodeNonzero result = false)
    (hc : result.get "get_realtime" = some leaf)
    (hk : leaf.hasKey "err_code" = true)
    (hv : leaf.get (if cfg.emeterUnits then "power_mw" else "power") = some v) :
    getEmeterRealtime cfg T = .ok (leaf.eraseKey "err_code") ∧
    (∀ k, k ≠ "err_code" → (leaf.eraseKey "err_code").get k = leaf.get k) ∧
    currentConsumption cfg T = .ok v := by
  have hrt : getEmeterRealtime cfg T = .ok (leaf.eraseKey "err_code") := by
    simp [getEmeterRealtime, hE, queryHelper, hT, hg, he, hc, hk]
  refine ⟨hrt, fun k hkne => Json.get_eraseKey_ne _ _ _ hkne, ?_⟩
  have hkey : (if cfg.emeterUnits then "power_mw" else "power") ≠ "err_code" := by
    cases cfg.emeterUnits <;> simp
  simp [currentConsumption, hE, hrt, Json.get_eraseKey_ne _ _ _ hkey, hv]

/-- Witness for `emeter_passthrough` on the concrete plug reading. -/
theorem emeter_passthrough_witness :
    getEmeterRealtime plugCfg plugEmeterT =
      .ok ((Json.obj [("current", Json.num 268), ("voltage", Json.num 125),
        ("power", Json.num 33), ("total", Json.num 0),
        ("err_code", Json.num 0)]).eraseKey "err_code") ∧
    (∀ k, k ≠ "err_code" →
      ((Json.obj [("current", Json.num 268), ("voltage", Json.num 125),
        ("power", Json.num 33), ("total", Json.num 0),
        ("err_code", Json.num 0)]).eraseKey "err_code").get k =
      (Json.obj [("current", Json.num 268), ("voltage", Json.num 125),
        ("power", Json.num 33), ("total", Json.num 0),
        ("err_code", Json.num 0)]).get k) ∧
    currentConsumption plugCfg plugEmeterT = .ok (Json.num 33) :=
  emeter_passthrough plugCfg plugEmeterT
    (Json.obj [("emeter", Json.obj [("get_realtime",
      Json.obj [("current", Json.num 268), ("voltage", Json.num 125),
        ("power", Json.num 33), ("total", Json.num 0),
        ("err_code", Json.num 0)])])])
    (Json.obj [("get_realtime",
      Json.obj [("current", Json.num 268), ("voltage", Json.num 125),
        ("power", Json.num 33), ("total", Json.num 0),
        ("err_code", Json.num 0)])])
    (Json.obj [("current", Json.num 268), ("voltage", Json.num 125),
      ("power", Json.num 33), ("total", Json.num 0), ("err_code", Json.num 0)])
    (Json.num 33) rfl rfl rfl rfl rfl rfl rfl

/-- C9 counterexample: on a bulb whose sysinfo reports `is_color = 0`,
the HSV setter returns `None` successfully — it does not raise any
capability error — after issuing only the read-only
`system.get_sysinfo` request and no state-changing request. -/
theorem hsv_setter_counterexample :
    bulbHsvSet bulbNoColorT 100 0 255 = (.ok none, [sysinfoReq]) ∧
    sysinfoReq.stateChanging = false :=
  ⟨rfl, rfl⟩

/-- C9 (amended): when the relevant capability flag read from sysinfo is
falsy, each gated `SmartBulb` setter (`hsv`, `color_temp`, `brightness`)
silently returns `None` — no exception is raised — and the only network
request issued is the read-only `system.get_sysinfo` fetched by the
capability check; no state-changing request is sent. -/
theorem bulb_setters_gated (T : Transport) (si : Json)
    (hq : queryHelper T "system" "get_sysinfo" (Json.obj []) = .ok si) :
    (∀ v hue sat value, si.get "is_color" = some v → truthy v = false →
        bulbHsvSet T hue sat value = (.ok none, [sysinfoReq])) ∧
    (∀ v temp, si.get "is_variable_color_temp" = some v → truthy v = false →
        bulbColorTempSet T temp = (.ok none, [sysinfoReq])) ∧
    (∀ v b, si.get "is_dimmable" = some v → truthy v = false →
        bulbBrightnessSet T b = (.ok none, [sysinfoReq])) ∧
    sysinfoReq.stateChanging = false := by
  refine ⟨?_, ?_, ?_, rfl⟩
  · intro v hue sat value hv ht
    simp [bulbHsvSet, hq, hv, ht]
  · intro v temp hv ht
    simp [bulbColorTempSet, hq, hv, ht]
  · intro v b hv ht
    simp [bulbBrightnessSet, hq, hv, ht]

/-- Witness for `bulb_setters_gated` on the `is_color = is_dimmable =
is_variable_color_temp = 0` bulb transport. -/
theorem bulb_setters_gated_witness :
    bulbHsvSet bulbNoColorT 1 2 3 = (.ok none, [sysinfoReq]) ∧
    bulbColorTempSet bulbNoColorT 2700 = (.ok none, [sysinfoReq]) ∧
    bulbBrightnessSet bulbNoColorT 50 = (.ok none, [sysinfoReq]) :=
  ⟨(bulb_setters_gated bulbNoColorT
      (Json.obj [("is_color", Json.num 0), ("is_dimmable", Json.num 0),
        ("is_variable_color_temp", Json.num 0), ("model", Json.str "LB120(US)")])
      rfl).1 (Json.num 0) 1 2 3 rfl rfl,
   (bulb_setters_gated bulbNoColorT
      (Json.obj [("is_color", Json.num 0), ("is_dimmable", Json.num 0),
        ("is_variable_color_temp", Json.num 0), ("model", Json.str "LB120(US)")])
      rfl).2.1 (Json.num 0) 2700 rfl rfl,
   (bulb_setters_gated bulbNoColorT
      (Json.obj [("is_color", Json.num 0), ("is_dimmable", Json.num 0),
        ("is_variable_color_temp", Json.num 0), ("model", Json.str "LB120(US)")])
      rfl).2.2.1 (Json.num 0) 50 rfl rfl⟩

lemma discoverLoop_eq (parse : List Nat → Option Json) (dgrams : List Datagram) :
    ∀ devices, discoverLoop parse devices dgrams =
      devices ++ (dgrams.takeWhile fun d => (parse (decrypt d.data)).isSome).filterMap
        (fun d => (parse (decrypt d.data)).map fun j => DeviceDesc.mk d.ip d.port j) := by
  induction dgrams with
  | nil => intro devices; simp [discoverLoop]
  | cons d rest ih =>
      intro devices
      cases hp : parse (decrypt d.data) with
      | none => simp [discoverLoop, hp, List.takeWhile_cons, List.filterMap_cons]
      | some info =>
          simp [discoverLoop, hp, ih, List.takeWhile_cons, List.filterMap_cons]

/-- C3 counterexample: in a sweep receiving a good datagram, a bad
datagram, then another good datagram, `discover` returns only the first
descriptor — the bad datagram is not skipped; it ends the collection, so
the third (parseable, pre-timeout) datagram is never returned. -/
theorem discover_counterexample :
    discover parseOnly1 cexDgrams = [⟨"a", 1, Json.num 7⟩] ∧
    (discover parseOnly1 cexDgrams).map DeviceDesc.ip ≠ ["a", "c"] :=
  ⟨rfl, by decide⟩

/-- C3 (amended): a datagram that fails to parse terminates the discovery
sweep early: the exception escapes the `while` loop into the outer
handler, and `discover` returns exactly the descriptors parsed from the
longest prefix of datagrams that all parse — datagrams after the first
bad one are never collected. -/
theorem discover_stops_at_first_bad (parse : List Nat → Option Json)
    (dgrams : List Datagram) :
    discover parse dgrams =
      (dgrams.takeWhile fun d => (parse (decrypt d.data)).isSome).filterMap
        (fun d => (parse (decrypt d.data)).map fun j => DeviceDesc.mk d.ip d.port j) := by
  rw [discover, discoverLoop_eq, List.nil_append]

lemma readTrigger_cons_zero (L base : Nat) (c : List Nat) (rest : List (List Nat)) :
    readTrigger L base (c :: rest) 0 ↔ ((0 < L ∧ L + 4 ≤ base + c.length) ∨ c = []) := by
  simp [readTrigger]

lemma readTrigger_cons_succ (L base : Nat) (c : List Nat) (rest : List (List Nat))
    (i : Nat) :
    readTrigger L base (c :: rest) (i + 1) ↔ readTrigger L (base + c.length) rest i := by
  simp [readTrigger, List.take_succ_cons, Nat.add_assoc]

lemma readLoop_ok_of_trigger (rest : List (List Nat)) :
    ∀ (L : Nat) (buf : List Nat),
      (∃ i, i < rest.length ∧ readTrigger L buf.length rest i) →
      ∃ n, n < rest.length ∧ readTrigger L buf.length rest n ∧
        readLoop (.some L) buf rest = .ok (buf ++ (rest.take (n + 1)).flatten) := by
  induction rest with
  | nil =>
      rintro L buf ⟨i, hi, -⟩
      simp at hi
  | cons c rest ih =>
      rintro L buf ⟨i, hi, htrig⟩
      by_cases hc : (0 < L ∧ L + 4 ≤ (buf ++ c).length) ∨ c = []
      · refine ⟨0, by simp, ?_, ?_⟩
        · exact (readTrigger_cons_zero L buf.length c rest).mpr
            (by simpa [List.length_append] using hc)
        · simp only [readLoop]
          rw [if_pos hc]
          simp
      · have hstep : readLoop (.some L) buf (c :: rest) = readLoop (.some L) (buf ++ c) rest := by
          simp only [readLoop]
          rw [if_neg hc]
        cases i with
        | zero =>
            exact absurd ((readTrigger_cons_zero L buf.length c rest).mp htrig)
              (by simpa [List.length_append] using hc)
        | succ j =>
            have hj : j < rest.length := by
              simp [List.length_cons] at hi; omega
            have htrig' : readTrigger L (buf ++ c).length rest j := by
              rw [List.length_append]
              exact (readTrigger_cons_succ L buf.length c rest j).mp htrig
            obtain ⟨n, hn, htn, heq⟩ := ih L (buf ++ c) ⟨j, hj, htrig'⟩
            refine ⟨n + 1, by simpa using Nat.succ_lt_succ hn, ?_, ?_⟩
            · refine (readTrigger_cons_succ L buf.length c rest n).mpr ?_
              rw [← List.length_append]
              exact htn
            · rw [hstep, heq]
              simp [List.take_succ_cons, List.append_assoc]

lemma readLoop_trigger_of_ok (rest : List (List Nat)) :
    ∀ (L : Nat) (buf b : List Nat),
      readLoop (.some L) buf rest = .ok b →
      ∃ n, n < rest.length ∧ readTrigger L buf.length rest n ∧
        b = buf ++ (rest.take (n + 1)).flatten := by
  induction rest with
  | nil =>
      intro L buf b h
      simp [readLoop] at h
  | cons c rest ih =>
      intro L buf b h
      by_cases hc : (0 < L ∧ L + 4 ≤ (buf ++ c).length) ∨ c = []
      · simp only [readLoop] at h
        rw [if_pos hc] at h
        refine ⟨0, by simp, (readTrigger_cons_zero L buf.length c rest).mpr
          (by simpa [List.length_append] using hc), ?_⟩
        cases h
        simp
      · simp only [readLoop] at h
        rw [if_neg hc] at h
        obtain ⟨n, hn, htn, hb⟩ := ih L (buf ++ c) b h
        refine ⟨n + 1, by simpa using Nat.succ_lt_succ hn, ?_, ?_⟩
        · refine (readTrigger_cons_succ L buf.length c rest n).mpr ?_
          rw [← List.length_append]
          exact htn
        · rw [hb]
          simp [List.take_succ_cons, List.append_assoc]

/-- C7 counterexample: with the peer sending one byte and then closing
(a zero-byte read — termination condition (b)), the loop does not
terminate by breaking with the buffer: the header unpack of the 1-byte
first chunk raises `struct.error`, so condition (b) is not honored. -/
theorem read_loop_counterexample :
    ([[0], []] : List (List Nat))[1]? = some [] ∧
    readLoop .none [] [[0], []] = .structError ∧
    ∀ b : List Nat, readLoop .none [] [[0], []] ≠ .ok b := by
  refine ⟨rfl, rfl, ?_⟩
  intro b h
  exact ReadResult.noConfusion h

/-- C7 (amended): provided the first received chunk carries at least the
4-byte header (otherwise `struct.unpack` raises), the receive loop of
`query` terminates normally exactly at a chunk after which (a) the bytes
received minus the 4-byte header reach the declared nonzero length, or
(b) the read returned zero bytes: if some chunk satisfies the condition
the loop returns the concatenation of all chunks up to a satisfying one,
and every normal termination returns such a concatenation at a
satisfying chunk. -/
theorem read_loop_terminates (c0 : List Nat) (rest : List (List Nat))
    (h4 : 4 ≤ c0.length) :
    ((∃ i, i < (c0 :: rest).length ∧
        readTrigger (unpack32be (c0.take 4)) 0 (c0 :: rest) i) →
      ∃ n, n < (c0 :: rest).length ∧
        readTrigger (unpack32be (c0.take 4)) 0 (c0 :: rest) n ∧
        readLoop .none [] (c0 :: rest) = .ok (((c0 :: rest).take (n + 1)).flatten)) ∧
    (∀ b, readLoop .none [] (c0 :: rest) = .ok b →
      ∃ n, n < (c0 :: rest).length ∧
        readTrigger (unpack32be (c0.take 4)) 0 (c0 :: rest) n ∧
        b = ((c0 :: rest).take (n + 1)).flatten) := by
  have hlt : ¬ c0.length < 4 := by omega
  have hred : readLoop .none [] (c0 :: rest) =
      if (0 < unpack32be (c0.take 4) ∧ unpack32be (c0.take 4) + 4 ≤ c0.length) ∨ c0 = []
      then .ok c0
      else readLoop (.some (unpack32be (c0.take 4))) c0 rest := by
    simp only [readLoop]
    rw [if_neg hlt]
    simp
  by_cases hc : (0 < unpack32be (c0.take 4) ∧
      unpack32be (c0.take 4) + 4 ≤ c0.length) ∨ c0 = []
  · constructor
    · rintro -
      refine ⟨0, by simp, (readTrigger_cons_zero _ 0 c0 rest).mpr (by simpa using hc), ?_⟩
      rw [hred, if_pos hc]
      simp
    · intro b hb
      rw [hred, if_pos hc] at hb
      cases hb
      refine ⟨0, by simp, (readTrigger_cons_zero _ 0 c0 rest).mpr (by simpa using hc), ?_⟩
      simp
  · constructor
    · rintro ⟨i, hi, htrig⟩
      cases i with
      | zero =>
          exact absurd ((readTrigger_cons_zero _ 0 c0 rest).mp htrig) (by simpa using hc)
      | succ j =>
          have hj : j < rest.length := by
            simp [List.length_cons] at hi; omega
          have htrig' : readTrigger (unpack32be (c0.take 4)) c0.length rest j := by
            have := (readTrigger_cons_succ _ 0 c0 rest j).mp htrig
            simpa using this
          obtain ⟨n, hn, htn, heq⟩ :=
            readLoop_ok_of_trigger rest (unpack32be (c0.take 4)) c0 ⟨j, hj, htrig'⟩
          refine ⟨n + 1, by simpa using Nat.succ_lt_succ hn, ?_, ?_⟩
          · refine (readTrigger_cons_succ _ 0 c0 rest n).mpr ?_
            simpa using htn
          · rw [hred, if_neg hc, heq]
            simp [List.take_succ_cons]
    · intro b hb
      rw [hred, if_neg hc] at hb
      obtain ⟨n, hn, htn, hbeq⟩ :=
        readLoop_trigger_of_ok rest (unpack32be (c0.take 4)) c0 b hb
      refine ⟨n + 1, by simpa using Nat.succ_lt_succ hn, ?_, ?_⟩
      · refine (readTrigger_cons_succ _ 0 c0 rest n).mpr ?_
        simpa using htn
      · rw [hbeq]
        simp [List.take_succ_cons]

/-- Witness for `read_loop_terminates`: a single chunk carrying a header
declaring length 1 followed by the 1-byte body triggers condition (a)
immediately and the loop returns the whole buffer. -/
theorem read_loop_terminates_witness :
    readLoop .none [] [[0, 0, 0, 1, 9]] = .ok [0, 0, 0, 1, 9] := by
  obtain ⟨h1, -⟩ := read_loop_terminates [0, 0, 0, 1, 9] [] (by decide)
  obtain ⟨n, hn, -, heq⟩ := h1 ⟨0, by decide, by unfold readTrigger; decide⟩
  simp only [List.length_cons, List.length_nil] at hn
  have hn0 : n = 0 := by omega
  subst hn0
  simpa using heq

/-- C10: on a strip, the per-outlet mutators and metering resolve their
index one-based — `_index_to_id(i)` reads `children[i-1]["id"]` and that
identifier is the addressing context of the dispatch — while the
per-outlet readers `is_on(i)` and `on_since(i)` read `children[i]`
zero-based; hence for `1 ≤ i` (with both positions in range and the two
child ids distinct) the outlet targeted by `turn_on_plug(i)` is not the
outlet whose state `is_on(i)` reports. -/
theorem strip_index_mismatch (sysinfo : Json) (cs : List Json) (i : Int)
    (cprev ci idPrev idCur : Json)
    (hch : sysinfo.get "children" = some (Json.arr cs))
    (h1 : 1 ≤ i)
    (hprev : cs[(i - 1).toNat]? = some cprev)
    (hcur : cs[i.toNat]? = some ci)
    (hidp : cprev.get "id" = some idPrev)
    (hidc : ci.get "id" = some idCur)
    (hne : idPrev ≠ idCur) :
    turnOnPlugReq sysinfo i =
      some ⟨"system", "set_relay_state", Json.obj [("state", Json.num 1)], some idPrev⟩ ∧
    turnOffPlugReq sysinfo i =
      some ⟨"system", "set_relay_state", Json.obj [("state", Json.num 0)], some idPrev⟩ ∧
    stripEmeterRealtimeReq sysinfo i =
      some ⟨"emeter", "get_realtime", Json.obj [], some idPrev⟩ ∧
    stripIsOnState sysinfo i = ci.get "state" ∧
    stripOnTime sysinfo i = ci.get "on_time" ∧
    ∀ r, turnOnPlugReq sysinfo i = some r → r.context ≠ some idCur := by
  have h0 : (0 : Int) ≤ i - 1 := by omega
  have h0' : (0 : Int) ≤ i := by omega
  have hprev' : cs[i.toNat - 1]? = some cprev := by
    have he : (i - 1).toNat = i.toNat - 1 := by omega
    rwa [he] at hprev
  have hid : indexToId sysinfo i = some idPrev := by
    simp [indexToId, hch, Json.pyAt, pyListGet, h0, hprev', hidp]
  have hon : turnOnPlugReq sysinfo i =
      some ⟨"system", "set_relay_state", Json.obj [("state", Json.num 1)], some idPrev⟩ := by
    simp [turnOnPlugReq, hid]
  refine ⟨hon, by simp [turnOffPlugReq, hid], by simp [stripEmeterRealtimeReq, hid],
    by simp [stripIsOnState, hch, Json.pyAt, pyListGet, h0', hcur],
    by simp [stripOnTime, hch, Json.pyAt, pyListGet, h0', hcur], ?_⟩
  intro r hr
  rw [hon] at hr
  injection hr with hr
  rw [← hr]
  intro hctx
  injection hctx with hctx
  exact hne hctx

/-- Witness for `strip_index_mismatch` on the three-outlet strip with
children ids `"A"`, `"B"`, `"C"` at index 1: the mutators target child
`"A"` (position 0) while the readers report child `"B"` (position 1). -/
theorem strip_index_mismatch_witness :
    turnOnPlugReq stripSysinfo3 1 =
      some ⟨"system", "set_relay_state", Json.obj [("state", Json.num 1)],
        some (Json.str "A")⟩ ∧
    turnOffPlugReq stripSysinfo3 1 =
      some ⟨"system", "set_relay_state", Json.obj [("state", Json.num 0)],
        some (Json.str "A")⟩ ∧
    stripEmeterRealtimeReq stripSysinfo3 1 =
      some ⟨"emeter", "get_realtime", Json.obj [], some (Json.str "A")⟩ ∧
    stripIsOnState stripSysinfo3 1 =
      (Json.obj [("id", Json.str "B"), ("state", Json.num 0),
        ("on_time", Json.num 20)]).get "state" ∧
    stripOnTime stripSysinfo3 1 =
      (Json.obj [("id", Json.str "B"), ("state", Json.num 0),
        ("on_time", Json.num 20)]).get "on_time" ∧
    ∀ r, turnOnPlugReq stripSysinfo3 1 = some r → r.context ≠ some (Json.str "B") :=
  strip_index_mismatch stripSysinfo3
    [Json.obj [("id", Json.str "A"), ("state", Json.num 1), ("on_time", Json.num 10)],
     Json.obj [("id", Json.str "B"), ("state", Json.num 0), ("on_time", Json.num 20)],
     Json.obj [("id", Json.str "C"), ("state", Json.num 1), ("on_time", Json.num 30)]]
    1
    (Json.obj [("id", Json.str "A"), ("state", Json.num 1), ("on_time", Json.num 10)])
    (Json.obj [("id", Json.str "B"), ("state", Json.num 0), ("on_time", Json.num 20)])
    (Json.str "A") (Json.str "B")
    rfl (by decide) rfl rfl rfl rfl (by simp)
